import Mathlib

/-!
Verification of the `@gnosticdev/hono-actions` package (Astro + Hono server
actions).  The development shallowly embeds the two layers the claims are
about:

1. the action wrapper `defineHonoAction` (`src/actions.ts`, both the zod and
   the valibot variant) together with `HonoActionError` (`src/error.ts`):
   a request is validated, the handler is run, and the result or error is
   wrapped in the fixed `\x7bdata, error\x7d` envelope;
2. the Astro integration (`src/integration.ts` and variants): the reserved
   base-path check in `setup`, the convention-based discovery of the actions
   file, and the config-setup hook that generates the router/client/adapter
   files and injects the catch-all route.

External collaborators (the zod/valibot validators, the glob utility, the
file system) enter the model at their interface boundary: validator results,
glob results and the adapter name are inputs of the embedded functions.
-/

namespace HonoActions

/-- JSON-serialisable JavaScript values, the data that flows through action
handlers and response envelopes.  The distinguished `null` matters: the
success branch of `defineHonoAction` places the handler's result directly in
the `data` field, so a handler resolving `null` produces `data = null`. -/
inductive Json where
  | null
  | bool (b : Bool)
  | num (n : Int)
  | str (s : String)
  | arr (elems : List Json)
  | obj (fields : List (String × Json))
deriving Repr, Inhabited

/-- Closed enumeration of action error codes, from `ActionErrorCode` in
`src/error.ts`. -/
inductive ActionErrorCode where
  | INPUT_VALIDATION_ERROR
  | EXTERNAL_API_ERROR
  | INTERNAL_SERVER_ERROR
  | UNKNOWN_ERROR
  | LOCATION_NOT_FOUND
  | SESSION_NOT_FOUND
deriving Repr, DecidableEq, Inhabited

/-- String form of an `ActionErrorCode`, as it appears on the wire (the TS
type is a union of string literals). -/
def ActionErrorCode.toStr : ActionErrorCode → String
  | .INPUT_VALIDATION_ERROR => "INPUT_VALIDATION_ERROR"
  | .EXTERNAL_API_ERROR => "EXTERNAL_API_ERROR"
  | .INTERNAL_SERVER_ERROR => "INTERNAL_SERVER_ERROR"
  | .UNKNOWN_ERROR => "UNKNOWN_ERROR"
  | .LOCATION_NOT_FOUND => "LOCATION_NOT_FOUND"
  | .SESSION_NOT_FOUND => "SESSION_NOT_FOUND"

/-- One validation issue as reported by the validator (zod `ZodIssue`,
valibot `BaseIssue`), taken at the validator's interface boundary.  Only the
`message` field is consumed by the wrapper. -/
structure ValidationIssue where
  message : String
deriving Repr, DecidableEq, Inhabited

/-- The typed domain error of `src/error.ts`.  Its constructor receives
`message`, `code` and an optional `issue` and always sets
`name = "HonoActionError"`. -/
structure HonoActionError where
  name : String
  message : String
  code : ActionErrorCode
  issue : Option ValidationIssue
deriving Repr, DecidableEq, Inhabited

/-- The `HonoActionError` constructor: `super(message)`, then
`this.name = 'HonoActionError'`, `this.code = code`, `this.issue = issue`. -/
def HonoActionError.make (message : String) (code : ActionErrorCode)
    (issue : Option ValidationIssue) : HonoActionError :=
  { name := "HonoActionError", message := message, code := code, issue := issue }

/-- The value placed in the `error` field of a response envelope.  The 400
branch embeds the freshly constructed `HonoActionError` instance itself; the
500 branch builds a plain object literal with `message` and `code` fields
(the code there is a plain string variable in the source). -/
inductive ResponseError where
  | fromAction (e : HonoActionError)
  | plain (message : String) (code : String)
deriving Repr, DecidableEq, Inhabited

/-- Message carried by a response error (either shape). -/
def ResponseError.msg : ResponseError → String
  | .fromAction e => e.message
  | .plain m _ => m

/-- Code carried by a response error, as a string (either shape). -/
def ResponseError.codeStr : ResponseError → String
  | .fromAction e => e.code.toStr
  | .plain _ c => c

/-- An action route's HTTP response: the status passed to `c.json` and the
two fields of the envelope object.  `error = none` models `error: null`. -/
structure ActionResponse where
  status : Nat
  data : Json
  error : Option ResponseError
deriving Repr, Inhabited

/-- Outcome of one handler invocation, at the wrapper's boundary: the handler
resolves with a JSON value, throws a `HonoActionError`, or throws any other
value (carried only to show it never reaches the response). -/
inductive HandlerOutcome where
  | ok (result : Json)
  | throwAction (e : HonoActionError)
  | throwOther (value : Json)
deriving Repr, Inhabited

/-- Result delivered by the zod validator hook (`zValidator`): parse success
with the parsed value, or failure with the issue list `result.error.issues`
in the validator's reported order. -/
inductive ZodResult where
  | success (value : Json)
  | failure (issues : List ValidationIssue)
deriving Repr, Inhabited

/-- Result delivered by the valibot validator hook (`vValidator`): valibot
types its failure issues as a nonempty tuple, so failure carries a first
issue and the rest. -/
inductive ValibotResult where
  | success (value : Json)
  | failure (first : ValidationIssue) (rest : List ValidationIssue)
deriving Repr, Inhabited

/-- JavaScript `x || fallback` on a possibly-undefined string `x`
(undefined and the empty string are falsy), as in
`firstIssue?.message || 'Validation error'`. -/
def jsOrElse (s : Option String) (fallback : String) : String :=
  match s with
  | some v => if v = "" then fallback else v
  | none => fallback

/-- Request processing of the route built by the zod variant of
`defineHonoAction` (`src/actions.ts`): the `zValidator('json', ...)` hook
responds 400 on failure using only the first issue
(`firstIssue?.message || 'Validation error'`, `code: INPUT_VALIDATION_ERROR`,
`issue: firstIssue`); on success the handler runs inside try/catch — a
resolved result is returned as 200 `\x7bdata: result, error: null\x7d`, a
thrown `HonoActionError` as 500 with its message and code, any other thrown
value as 500 with the generic internal-error message and code. -/
def handleActionRequest (validated : ZodResult)
    (run : Json → HandlerOutcome) : ActionResponse :=
  match validated with
  | .failure issues =>
      let firstIssue := issues.head?
      { status := 400
        data := Json.null
        error := some (.fromAction (HonoActionError.make
          (jsOrElse (firstIssue.map ValidationIssue.message) "Validation error")
          ActionErrorCode.INPUT_VALIDATION_ERROR firstIssue)) }
  | .success json =>
      match run json with
      | .ok result =>
          { status := 200, data := result, error := none }
      | .throwAction e =>
          { status := 500
            data := Json.null
            error := some (.plain e.message e.code.toStr) }
      | .throwOther _ =>
          { status := 500
            data := Json.null
            error := some (.plain "Internal server error" "INTERNAL_SERVER_ERROR") }

/-- Request processing of the route built by the valibot variant of
`defineHonoAction`: identical except that the validator hook uses
`result.issues[0].message` directly (no fallback — valibot's issue tuple is
nonempty by type). -/
def handleActionRequestV (validated : ValibotResult)
    (run : Json → HandlerOutcome) : ActionResponse :=
  match validated with
  | .failure first _rest =>
      { status := 400
        data := Json.null
        error := some (.fromAction (HonoActionError.make first.message
          ActionErrorCode.INPUT_VALIDATION_ERROR (some first))) }
  | .success json =>
      match run json with
      | .ok result =>
          { status := 200, data := result, error := none }
      | .throwAction e =>
          { status := 500
            data := Json.null
            error := some (.plain e.message e.code.toStr) }
      | .throwOther _ =>
          { status := 500
            data := Json.null
            error := some (.plain "Internal server error" "INTERNAL_SERVER_ERROR") }

example :
    handleActionRequest (ZodResult.success (Json.obj [("name", Json.str "John")]))
      (fun j => HandlerOutcome.ok (Json.obj [("echo", j)])) =
      { status := 200
        data := Json.obj [("echo", Json.obj [("name", Json.str "John")])]
        error := none } := rfl

example :
    handleActionRequest (ZodResult.failure [{ message := "Required" }])
      (fun _ => HandlerOutcome.ok Json.null) =
      { status := 400
        data := Json.null
        error := some (.fromAction (HonoActionError.make "Required"
          ActionErrorCode.INPUT_VALIDATION_ERROR (some { message := "Required" }))) } := rfl

example :
    handleActionRequestV (ValibotResult.success Json.null)
      (fun _ => HandlerOutcome.throwAction
        (HonoActionError.make "boom" ActionErrorCode.EXTERNAL_API_ERROR none)) =
      { status := 500
        data := Json.null
        error := some (.plain "boom" "EXTERNAL_API_ERROR") } := rfl

/-! ## Integration layer -/

/-- Reserved route prefixes, from `src/lib/utils.ts`. -/
def reservedRoutes : List String := ["_astro", "_actions", "_server_islands"]

/-- The fixed ordered discovery pattern list `ACTION_PATTERNS` of
`src/integration.ts` (identical in every variant). -/
def ACTION_PATTERNS : List String :=
  ["src/server/actions.ts", "src/hono/actions.ts", "src/hono/index.ts", "src/hono.ts"]

/-- Supported deployment adapters, `SUPPORTED_ADAPTERS` of the variant with
the adapter check. -/
def SUPPORTED_ADAPTERS : List String := ["@astrojs/cloudflare"]

/-- Membership test `isSupportedAdapter` from the same variant. -/
def isSupportedAdapter (adapter : String) : Bool :=
  SUPPORTED_ADAPTERS.contains adapter

/-- Virtual module id for the generated client. -/
def VIRTUAL_MODULE_ID_CLIENT : String := "@gnosticdev/hono-actions/client"

/-- Virtual module id for the generated router. -/
def VIRTUAL_MODULE_ID_ROUTER : String := "virtual:hono-actions/router"

/-- The integration's options object (both fields optional; zod schema in
`src/integration.ts`). -/
structure IntegrationOptions where
  basePath : Option String
  actionsPath : Option String
deriving Repr, DecidableEq, Inhabited

/-- The `setup` prologue shared by every integration variant: default the
base path to `/api` and throw when it is a member of `reservedRoutes`;
otherwise hand the base path to the hooks. -/
def setupBasePath (options : IntegrationOptions) : Except String String :=
  let basePath := options.basePath.getD "/api"
  if reservedRoutes.contains basePath then
    Except.error
      ("Base path " ++ basePath ++ " is reserved by Astro; pick another (e.g. /api2).")
  else
    Except.ok basePath

/-- JavaScript truthiness test `!x` for a string-or-undefined value:
undefined and the empty string are falsy. -/
def jsFalsyStr : Option String → Bool
  | none => true
  | some s => s = ""

/-- The discovery step of the config-setup hook:
`options.actionsPath ?? files[0]`, where `files` is the glob result. -/
def discoveredActionsPath (options : IntegrationOptions)
    (globFiles : List String) : Option String :=
  match options.actionsPath with
  | some p => some p
  | none => globFiles.head?

/-- Modelled from the spec: the glob collaborator (tinyglobby) is not part of
this repository; the spec's discovery contract (§4.2, §6) is to search the
fixed ordered pattern list under the consumer project root and take the first
match, so the boundary model returns the patterns that exist, in the order of
the list. -/
def globModel (patterns : List String) (existsOnDisk : String → Bool) : List String :=
  patterns.filter existsOnDisk

/-- The warning logged when no actions file is discovered, exactly as built in
the hook (`ACTION_PATTERNS.map(...).join('\n')`). -/
def noActionsWarning : String :=
  "No actions found. Create one of:\n" ++
    String.intercalate "\n" (ACTION_PATTERNS.map (fun p => " - " ++ p))

/-- The error logged by the adapter-checking variant when no adapter is
configured (template literal with its source indentation). -/
def noAdapterErrorLog : String :=
  "No Astro adapter found. Add one of:\n                            - " ++
    String.intercalate "\n - " SUPPORTED_ADAPTERS ++ " to your astro.config.mjs"

/-- Modelled from the spec: `generateRouter` lives in
`src/integration-files.ts`, which is not among the provided sources; per the
spec (§4.3) it is a pure function from the base path and the resolved
relative import path to the router module's text.  The claims depend only on which
arguments reach it, so the text is abbreviated. -/
def generateRouter (basePath : String) (relativeActionsPath : String) : String :=
  "router-module basePath=" ++ basePath ++ " actionsImport=" ++ relativeActionsPath

/-- Modelled from the spec: `getHonoClient` of `src/integration-files.ts`
(client generator of the older variants), a pure function of the dev-server
port. -/
def getHonoClient (port : Nat) : String :=
  "client-module port=" ++ toString port

/-- Modelled from the spec: `generateHonoClient` of `src/integration-files.ts`
(client generator of the adapter-checking variant), a pure function of the
dev-server port. -/
def generateHonoClient (port : Nat) : String :=
  "client-module port=" ++ toString port

/-- Modelled from the spec: `getAstroHandler` of `src/integration-files.ts`,
the platform HTTP-adapter generator of the older variants.  The hooks of
those variants call it with the literal `'cloudflare'` only. -/
def getAstroHandler (adapter : String) : String :=
  "astro-handler adapter=" ++ adapter

/-- Modelled from the spec: `generateAstroHandler` of
`src/integration-files.ts`.  Per the spec (§4.3) and the repository's own test
(`expect(() => generateAstroHandler('unsupported')).toThrow('Unsupported
adapter: unsupported')`), it produces the handler text for a supported target
and throws an error naming an unsupported one. -/
def generateAstroHandler (adapter : String) : Except String String :=
  if isSupportedAdapter adapter then
    Except.ok ("astro-handler adapter=" ++ adapter)
  else
    Except.error ("Unsupported adapter: " ++ adapter)

/-- Inputs the `astro:config:setup` hook reads from Astro's `params`: the
glob result for `ACTION_PATTERNS` under the project root, the configured
adapter's name (`params.config.adapter?.name`) and the dev-server port. -/
structure ConfigSetupInput where
  globFiles : List String
  adapterName : Option String
  port : Nat
deriving Repr, DecidableEq, Inhabited

/-- Observable effects of one run of the config-setup hook, in the order the
source performs them. -/
structure HookEffects where
  warnings : List String
  errorLogs : List String
  infoLogs : List String
  watchFiles : List String
  writtenFiles : List (String × String)
  virtualImports : List (String × String)
  injectedRoutes : List (String × String)
deriving Repr, DecidableEq, Inhabited

/-- No effects yet. -/
def HookEffects.empty : HookEffects := ⟨[], [], [], [], [], [], []⟩

/-- A hook run: the effects it performed, and the error it threw (if any)
after performing them. -/
structure HookOutcome where
  effects : HookEffects
  thrown : Option String
deriving Repr, DecidableEq, Inhabited

/-- The `astro:config:setup` hook of `src/integration.ts` (lenient about a
missing actions file, throws on a missing adapter, generates the cloudflare
handler unconditionally via `getAstroHandler('cloudflare')`): discover the
actions file (warn and return when there is none), watch it, write
`router.ts`, require an adapter name, write `api.ts` and `client.ts`, add the
two virtual imports and inject the catch-all route. -/
def configSetupHook (options : IntegrationOptions) (basePath : String)
    (input : ConfigSetupInput) : HookOutcome :=
  let actionsPath := discoveredActionsPath options input.globFiles
  if jsFalsyStr actionsPath then
    ⟨{ HookEffects.empty with warnings := [noActionsWarning] }, none⟩
  else
    let p := actionsPath.getD ""
    let base : HookEffects :=
      { HookEffects.empty with
          watchFiles := [p]
          infoLogs := ["Found actions: " ++ p]
          writtenFiles := [("router.ts", generateRouter basePath p)] }
    if jsFalsyStr input.adapterName then
      ⟨base, some "No Astro adapter found"⟩
    else
      ⟨{ base with
          writtenFiles := base.writtenFiles ++
            [("api.ts", getAstroHandler "cloudflare"),
             ("client.ts", getHonoClient input.port)]
          virtualImports :=
            [(VIRTUAL_MODULE_ID_CLIENT, "client.ts"),
             (VIRTUAL_MODULE_ID_ROUTER, "router.ts")]
          injectedRoutes := [(basePath ++ "/[...slug]", "api.ts")]
          infoLogs := base.infoLogs ++
            ["✅ Hono Actions virtual imports added",
             "✅ Hono Actions route mounted at " ++ basePath ++ "/[...slug]"] },
        none⟩

/-- The `astro:config:setup` hook of the adapter-checking variant of
`src/integration.ts`: identical discovery and router generation, but a
missing adapter is only logged (the hook returns), a supported adapter's
handler comes from `generateAstroHandler(adapter)`, and an unsupported
adapter name throws `Unsupported adapter: <name>`. -/
def configSetupHook8 (options : IntegrationOptions) (basePath : String)
    (input : ConfigSetupInput) : HookOutcome :=
  let actionsPath := discoveredActionsPath options input.globFiles
  if jsFalsyStr actionsPath then
    ⟨{ HookEffects.empty with warnings := [noActionsWarning] }, none⟩
  else
    let p := actionsPath.getD ""
    let base : HookEffects :=
      { HookEffects.empty with
          watchFiles := [p]
          infoLogs := ["Found actions: " ++ p]
          writtenFiles := [("router.ts", generateRouter basePath p)] }
    if jsFalsyStr input.adapterName then
      ⟨{ base with errorLogs := [noAdapterErrorLog] }, none⟩
    else
      let adapter := input.adapterName.getD ""
      if isSupportedAdapter adapter then
        match generateAstroHandler adapter with
        | Except.ok content =>
            ⟨{ base with
                writtenFiles := base.writtenFiles ++
                  [("api.ts", content), ("client.ts", generateHonoClient input.port)]
                virtualImports :=
                  [(VIRTUAL_MODULE_ID_CLIENT, "client.ts"),
                   (VIRTUAL_MODULE_ID_ROUTER, "router.ts")]
                injectedRoutes := [(basePath ++ "/[...slug]", "api.ts")]
                infoLogs := base.infoLogs ++
                  ["✅ Hono Actions virtual imports added",
                   "✅ Hono Actions route mounted at " ++ basePath ++ "/[...slug]"] },
              none⟩
        | Except.error e => ⟨base, some e⟩
      else
        ⟨base, some ("Unsupported adapter: " ++ adapter)⟩

/-- One whole configuration pass of the `src/integration.ts` variant: the
`setup` prologue runs first (it throws on a reserved base path, so the hook
never runs and no effect is performed), then the config-setup hook. -/
def runIntegration (options : IntegrationOptions)
    (input : ConfigSetupInput) : Except String HookOutcome :=
  match setupBasePath options with
  | Except.error e => Except.error e
  | Except.ok basePath => Except.ok (configSetupHook options basePath input)

/-- One whole configuration pass of the adapter-checking variant. -/
def runIntegration8 (options : IntegrationOptions)
    (input : ConfigSetupInput) : Except String HookOutcome :=
  match setupBasePath options with
  | Except.error e => Except.error e
  | Except.ok basePath => Except.ok (configSetupHook8 options basePath input)

example :
    runIntegration { basePath := some "_astro", actionsPath := none }
      { globFiles := ["src/hono.ts"], adapterName := some "@astrojs/cloudflare", port := 4321 } =
      Except.error "Base path _astro is reserved by Astro; pick another (e.g. /api2)." := rfl

example :
    (configSetupHook { basePath := none, actionsPath := none } "/api"
      { globFiles := [], adapterName := some "@astrojs/cloudflare", port := 4321 }) =
      ⟨{ HookEffects.empty with warnings := [noActionsWarning] }, none⟩ := by
  decide

example :
    (configSetupHook8 { basePath := none, actionsPath := none } "/api"
      { globFiles := ["src/hono.ts"], adapterName := some "@astrojs/vercel", port := 4321 }).thrown =
      some "Unsupported adapter: @astrojs/vercel" := by
  decide

example :
    (configSetupHook { basePath := none, actionsPath := none } "/api"
      { globFiles := ["src/hono.ts"], adapterName := some "@astrojs/vercel", port := 4321 }).thrown =
      none := by
  decide

/-! ## Claim theorems -/

/-- Head of a filtered list is the first element passing the test. -/
theorem head?_filter {α : Type} (f : α → Bool) :
    ∀ l : List α, (l.filter f).head? = l.find? f := by
  intro l
  induction l with
  | nil => rfl
  | cons a t ih => cases h : f a <;> simp [List.filter_cons, List.find?_cons, h, ih]

/-- C1 (amended): every handled request of either `defineHonoAction` variant
yields an envelope that is either `data = null` with a non-null `error`, or
`error = null` at status 200 with `data` exactly the handler's resolved
result; the two fields are never both non-null, and they are both null
exactly in a success response whose handler resolved `null`. -/
theorem c1_envelope_exclusive (validated : ZodResult) (validatedV : ValibotResult)
    (run runV : Json → HandlerOutcome) :
    ((∃ err, (handleActionRequest validated run).data = Json.null ∧
        (handleActionRequest validated run).error = some err) ∨
      (∃ parsed, validated = ZodResult.success parsed ∧
        run parsed = HandlerOutcome.ok (handleActionRequest validated run).data ∧
        (handleActionRequest validated run).error = none ∧
        (handleActionRequest validated run).status = 200)) ∧
    ((∃ err, (handleActionRequestV validatedV runV).data = Json.null ∧
        (handleActionRequestV validatedV runV).error = some err) ∨
      (∃ parsed, validatedV = ValibotResult.success parsed ∧
        runV parsed = HandlerOutcome.ok (handleActionRequestV validatedV runV).data ∧
        (handleActionRequestV validatedV runV).error = none ∧
        (handleActionRequestV validatedV runV).status = 200)) := by
  constructor
  · cases validated with
    | failure issues => exact Or.inl ⟨_, rfl, rfl⟩
    | success parsed =>
        cases h : run parsed with
        | ok result =>
            refine Or.inr ⟨parsed, rfl, ?_, ?_, ?_⟩ <;> simp [handleActionRequest, h]
        | throwAction e =>
            refine Or.inl ⟨ResponseError.plain e.message e.code.toStr, ?_, ?_⟩ <;>
              simp [handleActionRequest, h]
        | throwOther v =>
            refine Or.inl
              ⟨ResponseError.plain "Internal server error" "INTERNAL_SERVER_ERROR", ?_, ?_⟩ <;>
              simp [handleActionRequest, h]
  · cases validatedV with
    | failure first rest => exact Or.inl ⟨_, rfl, rfl⟩
    | success parsed =>
        cases h : runV parsed with
        | ok result =>
            refine Or.inr ⟨parsed, rfl, ?_, ?_, ?_⟩ <;> simp [handleActionRequestV, h]
        | throwAction e =>
            refine Or.inl ⟨ResponseError.plain e.message e.code.toStr, ?_, ?_⟩ <;>
              simp [handleActionRequestV, h]
        | throwOther v =>
            refine Or.inl
              ⟨ResponseError.plain "Internal server error" "INTERNAL_SERVER_ERROR", ?_, ?_⟩ <;>
              simp [handleActionRequestV, h]

/-- C1 counterexample: a handler that resolves `null` produces the success
envelope with `data = null` and `error = null` — both fields null at once,
refuting the claimed exclusivity. -/
theorem c1_counterexample :
    (handleActionRequest (ZodResult.success (Json.obj []))
        (fun _ => HandlerOutcome.ok Json.null)).data = Json.null ∧
    (handleActionRequest (ZodResult.success (Json.obj []))
        (fun _ => HandlerOutcome.ok Json.null)).error = none :=
  ⟨rfl, rfl⟩

/-- C2 (amended): a validation failure responds 400 with `data = null` and an
`INPUT_VALIDATION_ERROR` error carrying only the first reported issue; the
error message is the first issue's message whenever that message is
non-empty — the zod variant falls back to `"Validation error"` for an empty
or missing first message, while the valibot variant uses
`issues[0].message` unconditionally. -/
theorem c2_first_issue_only (issues : List ValidationIssue)
    (first : ValidationIssue) (rest : List ValidationIssue)
    (run runV : Json → HandlerOutcome)
    (hmsg : first.message ≠ "") :
    (handleActionRequest (ZodResult.failure issues) run).status = 400 ∧
    (handleActionRequest (ZodResult.failure issues) run).data = Json.null ∧
    (handleActionRequest (ZodResult.failure issues) run).error =
      some (ResponseError.fromAction (HonoActionError.make
        (jsOrElse (issues.head?.map ValidationIssue.message) "Validation error")
        ActionErrorCode.INPUT_VALIDATION_ERROR issues.head?)) ∧
    handleActionRequest (ZodResult.failure (first :: rest)) run =
      { status := 400
        data := Json.null
        error := some (ResponseError.fromAction (HonoActionError.make first.message
          ActionErrorCode.INPUT_VALIDATION_ERROR (some first))) } ∧
    handleActionRequestV (ValibotResult.failure first rest) runV =
      { status := 400
        data := Json.null
        error := some (ResponseError.fromAction (HonoActionError.make first.message
          ActionErrorCode.INPUT_VALIDATION_ERROR (some first))) } := by
  refine ⟨rfl, rfl, rfl, ?_, rfl⟩
  simp [handleActionRequest, jsOrElse, hmsg]

/-- C2 witness: the amended statement at a concrete failing request whose
first (and only) issue says "Required". -/
theorem c2_first_issue_only_witness :
    (handleActionRequest (ZodResult.failure [{ message := "Required" }])
        (fun _ => HandlerOutcome.ok Json.null)).status = 400 ∧
    (handleActionRequest (ZodResult.failure [{ message := "Required" }])
        (fun _ => HandlerOutcome.ok Json.null)).data = Json.null ∧
    (handleActionRequest (ZodResult.failure [{ message := "Required" }])
        (fun _ => HandlerOutcome.ok Json.null)).error =
      some (ResponseError.fromAction (HonoActionError.make
        (jsOrElse (([({ message := "Required" } : ValidationIssue)].head?).map
          ValidationIssue.message) "Validation error")
        ActionErrorCode.INPUT_VALIDATION_ERROR
        ([({ message := "Required" } : ValidationIssue)].head?))) ∧
    handleActionRequest
        (ZodResult.failure (({ message := "Required" } : ValidationIssue) :: []))
        (fun _ => HandlerOutcome.ok Json.null) =
      { status := 400
        data := Json.null
        error := some (ResponseError.fromAction (HonoActionError.make "Required"
          ActionErrorCode.INPUT_VALIDATION_ERROR (some { message := "Required" }))) } ∧
    handleActionRequestV
        (ValibotResult.failure { message := "Required" } [])
        (fun _ => HandlerOutcome.ok Json.null) =
      { status := 400
        data := Json.null
        error := some (ResponseError.fromAction (HonoActionError.make "Required"
          ActionErrorCode.INPUT_VALIDATION_ERROR (some { message := "Required" }))) } :=
  c2_first_issue_only [{ message := "Required" }] { message := "Required" } []
    (fun _ => HandlerOutcome.ok Json.null) (fun _ => HandlerOutcome.ok Json.null)
    (by decide)

/-- C2 counterexample: in the zod variant a first issue whose message is the
empty string yields the fallback message `"Validation error"`, not the first
issue's message `""` — the response message differs from the first reported
issue's message. -/
theorem c2_counterexample :
    (handleActionRequest (ZodResult.failure [{ message := "" }])
        (fun _ => HandlerOutcome.ok Json.null)).error =
      some (ResponseError.fromAction (HonoActionError.make "Validation error"
        ActionErrorCode.INPUT_VALIDATION_ERROR (some { message := "" }))) ∧
    "Validation error" ≠ "" := by
  exact ⟨by decide, by decide⟩

/-- C3: a handler throwing a `HonoActionError` constructed with code `C` and
message `M` produces, in either variant, status 500 and the envelope
`data = null`, `error.code = C`, `error.message = M`. -/
theorem c3_action_error_envelope (parsed : Json) (run runV : Json → HandlerOutcome)
    (M : String) (C : ActionErrorCode) (issue : Option ValidationIssue)
    (h : run parsed = HandlerOutcome.throwAction (HonoActionError.make M C issue))
    (hV : runV parsed = HandlerOutcome.throwAction (HonoActionError.make M C issue)) :
    handleActionRequest (ZodResult.success parsed) run =
      { status := 500
        data := Json.null
        error := some (ResponseError.plain M C.toStr) } ∧
    handleActionRequestV (ValibotResult.success parsed) runV =
      { status := 500
        data := Json.null
        error := some (ResponseError.plain M C.toStr) } := by
  constructor <;>
    simp [handleActionRequest, handleActionRequestV, h, hV, HonoActionError.make]

/-- C3 witness: a handler throwing the domain error with code
`EXTERNAL_API_ERROR` and message "Custom error message". -/
theorem c3_action_error_envelope_witness :
    handleActionRequest (ZodResult.success Json.null)
        (fun _ => HandlerOutcome.throwAction (HonoActionError.make "Custom error message"
          ActionErrorCode.EXTERNAL_API_ERROR none)) =
      { status := 500
        data := Json.null
        error := some (ResponseError.plain "Custom error message"
          ActionErrorCode.EXTERNAL_API_ERROR.toStr) } ∧
    handleActionRequestV (ValibotResult.success Json.null)
        (fun _ => HandlerOutcome.throwAction (HonoActionError.make "Custom error message"
          ActionErrorCode.EXTERNAL_API_ERROR none)) =
      { status := 500
        data := Json.null
        error := some (ResponseError.plain "Custom error message"
          ActionErrorCode.EXTERNAL_API_ERROR.toStr) } :=
  c3_action_error_envelope Json.null
    (fun _ => HandlerOutcome.throwAction (HonoActionError.make "Custom error message"
      ActionErrorCode.EXTERNAL_API_ERROR none))
    (fun _ => HandlerOutcome.throwAction (HonoActionError.make "Custom error message"
      ActionErrorCode.EXTERNAL_API_ERROR none))
    "Custom error message" ActionErrorCode.EXTERNAL_API_ERROR none rfl rfl

/-- C4: a handler throwing any non-`HonoActionError` value produces, in
either variant, status 500 and the fixed generic envelope; the response is
the same whatever value was thrown, so the thrown value never reaches the
caller. -/
theorem c4_internal_error_envelope (parsed : Json) (run runV : Json → HandlerOutcome)
    (v w : Json)
    (h : run parsed = HandlerOutcome.throwOther v)
    (hV : runV parsed = HandlerOutcome.throwOther w) :
    handleActionRequest (ZodResult.success parsed) run =
      { status := 500
        data := Json.null
        error := some (ResponseError.plain "Internal server error" "INTERNAL_SERVER_ERROR") } ∧
    handleActionRequestV (ValibotResult.success parsed) runV =
      { status := 500
        data := Json.null
        error := some (ResponseError.plain "Internal server error" "INTERNAL_SERVER_ERROR") } := by
  constructor <;> simp [handleActionRequest, handleActionRequestV, h, hV]

/-- C4 witness: a handler throwing the plain string value "kaboom". -/
theorem c4_internal_error_envelope_witness :
    handleActionRequest (ZodResult.success Json.null)
        (fun _ => HandlerOutcome.throwOther (Json.str "kaboom")) =
      { status := 500
        data := Json.null
        error := some (ResponseError.plain "Internal server error" "INTERNAL_SERVER_ERROR") } ∧
    handleActionRequestV (ValibotResult.success Json.null)
        (fun _ => HandlerOutcome.throwOther (Json.str "kaboom")) =
      { status := 500
        data := Json.null
        error := some (ResponseError.plain "Internal server error" "INTERNAL_SERVER_ERROR") } :=
  c4_internal_error_envelope Json.null
    (fun _ => HandlerOutcome.throwOther (Json.str "kaboom"))
    (fun _ => HandlerOutcome.throwOther (Json.str "kaboom"))
    (Json.str "kaboom") (Json.str "kaboom") rfl rfl

/-- C5 (amended): a handler invocation that resolves without throwing yields
status 200 with `error = null` and `data` equal to the handler's resolved
result — so `data` is non-null exactly when the result is; a handler
resolving `null` yields `data = null`. -/
theorem c5_success_envelope (parsed result : Json) (run runV : Json → HandlerOutcome)
    (h : run parsed = HandlerOutcome.ok result)
    (hV : runV parsed = HandlerOutcome.ok result) :
    handleActionRequest (ZodResult.success parsed) run =
      { status := 200, data := result, error := none } ∧
    handleActionRequestV (ValibotResult.success parsed) runV =
      { status := 200, data := result, error := none } := by
  constructor <;> simp [handleActionRequest, handleActionRequestV, h, hV]

/-- C5 witness: a handler resolving a non-null object. -/
theorem c5_success_envelope_witness :
    handleActionRequest (ZodResult.success (Json.obj [("name", Json.str "John")]))
        (fun _ => HandlerOutcome.ok (Json.obj [("message", Json.str "Hello John")])) =
      { status := 200
        data := Json.obj [("message", Json.str "Hello John")]
        error := none } ∧
    handleActionRequestV (ValibotResult.success (Json.obj [("name", Json.str "John")]))
        (fun _ => HandlerOutcome.ok (Json.obj [("message", Json.str "Hello John")])) =
      { status := 200
        data := Json.obj [("message", Json.str "Hello John")]
        error := none } :=
  c5_success_envelope (Json.obj [("name", Json.str "John")])
    (Json.obj [("message", Json.str "Hello John")])
    (fun _ => HandlerOutcome.ok (Json.obj [("message", Json.str "Hello John")]))
    (fun _ => HandlerOutcome.ok (Json.obj [("message", Json.str "Hello John")]))
    rfl rfl

/-- C5 counterexample: a handler resolving `null` gets status 200 and
`error = null` but `data = null`, refuting the claimed `data !== null`. -/
theorem c5_counterexample :
    handleActionRequest (ZodResult.success (Json.obj [("name", Json.str "John")]))
      (fun _ => HandlerOutcome.ok Json.null) =
      { status := 200, data := Json.null, error := none } ∧
    (handleActionRequest (ZodResult.success (Json.obj [("name", Json.str "John")]))
      (fun _ => HandlerOutcome.ok Json.null)).data = Json.null :=
  ⟨rfl, rfl⟩

/-- C6: a configured base path that is a member of `reservedRoutes` makes the
configuration pass fail already in `setup` with the reserved-path error, so
the config-setup hook never runs — no route is injected and no file is
written; the default base path `/api` (explicit or defaulted) passes the
check. -/
theorem c6_reserved_base_path (ap : Option String) (input : ConfigSetupInput) :
    (∀ bp, bp ∈ reservedRoutes →
      runIntegration { basePath := some bp, actionsPath := ap } input =
        Except.error
          ("Base path " ++ bp ++ " is reserved by Astro; pick another (e.g. /api2).")) ∧
    setupBasePath { basePath := some "/api", actionsPath := ap } = Except.ok "/api" ∧
    setupBasePath { basePath := none, actionsPath := ap } = Except.ok "/api" := by
  refine ⟨?_, rfl, rfl⟩
  intro bp h
  simp [runIntegration, setupBasePath, h]

/-- C7: with zero discovered action files and no `actionsPath` override, the
lenient config-setup hooks perform exactly one effect — the warning listing
every conventional pattern — and return: nothing is written, no route is
injected, nothing is thrown. -/
theorem c7_no_actions_lenient (b : Option String) (basePath : String)
    (adapterName : Option String) (port : Nat) :
    configSetupHook { basePath := b, actionsPath := none } basePath
      { globFiles := [], adapterName := adapterName, port := port } =
      ⟨{ HookEffects.empty with warnings := [noActionsWarning] }, none⟩ ∧
    configSetupHook8 { basePath := b, actionsPath := none } basePath
      { globFiles := [], adapterName := adapterName, port := port } =
      ⟨{ HookEffects.empty with warnings := [noActionsWarning] }, none⟩ ∧
    noActionsWarning =
      "No actions found. Create one of:\n - src/server/actions.ts\n - src/hono/actions.ts\n - src/hono/index.ts\n - src/hono.ts" :=
  ⟨rfl, rfl, rfl⟩

/-- C8: discovery resolution — an explicit `actionsPath` override wins and the
glob result is ignored; without an override the hook uses the first element of
the glob result; and at the spec's boundary for the external glob utility
(existing patterns returned in the order of the fixed list) that first
element is the first pattern of `ACTION_PATTERNS` that exists. -/
theorem c8_discovery_first_match (bp : Option String) (p : String)
    (files : List String) (existsOnDisk : String → Bool) :
    discoveredActionsPath { basePath := bp, actionsPath := some p } files = some p ∧
    discoveredActionsPath { basePath := bp, actionsPath := none } files = files.head? ∧
    (globModel ACTION_PATTERNS existsOnDisk).head? = ACTION_PATTERNS.find? existsOnDisk :=
  ⟨rfl, rfl, head?_filter existsOnDisk ACTION_PATTERNS⟩

/-- C9 (amended): in the adapter-checking hook variant, a configured adapter
whose non-empty name lies outside `SUPPORTED_ADAPTERS` makes the hook throw
`Unsupported adapter: <name>`, naming the supplied value; the
`src/integration.ts` and `src/index.ts` variants check only that an adapter
is present and generate the cloudflare handler whatever its name. -/
theorem c9_unsupported_adapter (options : IntegrationOptions) (basePath : String)
    (files : List String) (port : Nat) (a : String)
    (hpath : jsFalsyStr (discoveredActionsPath options files) = false)
    (hne : a ≠ "")
    (hunsup : isSupportedAdapter a = false) :
    (configSetupHook8 options basePath
      { globFiles := files, adapterName := some a, port := port }).thrown =
      some ("Unsupported adapter: " ++ a) := by
  rcases hd : discoveredActionsPath options files with _ | p
  · rw [hd] at hpath
    simp [jsFalsyStr] at hpath
  · rw [hd] at hpath
    have hp : p ≠ "" := by simpa [jsFalsyStr] using hpath
    simp [configSetupHook8, hd, jsFalsyStr, hp, hne, hunsup]

/-- C9 witness: the adapter-checking hook at the unsupported adapter name
`@astrojs/vercel`. -/
theorem c9_unsupported_adapter_witness :
    (configSetupHook8 { basePath := none, actionsPath := none } "/api"
      { globFiles := ["src/hono.ts"], adapterName := some "@astrojs/vercel", port := 4321 }).thrown =
      some ("Unsupported adapter: " ++ "@astrojs/vercel") :=
  c9_unsupported_adapter { basePath := none, actionsPath := none } "/api"
    ["src/hono.ts"] 4321 "@astrojs/vercel" (by decide) (by decide) (by decide)

/-- C9 counterexample: the `src/integration.ts` variant never inspects the
adapter's name — with the unsupported `@astrojs/vercel` configured, the whole
pass completes without throwing, still writing the cloudflare handler and
injecting the route. -/
theorem c9_counterexample :
    runIntegration { basePath := none, actionsPath := none }
      { globFiles := ["src/hono.ts"], adapterName := some "@astrojs/vercel", port := 4321 } =
      Except.ok
        ⟨{ warnings := []
           errorLogs := []
           infoLogs := ["Found actions: src/hono.ts",
             "✅ Hono Actions virtual imports added",
             "✅ Hono Actions route mounted at /api/[...slug]"]
           watchFiles := ["src/hono.ts"]
           writtenFiles := [("router.ts", generateRouter "/api" "src/hono.ts"),
             ("api.ts", getAstroHandler "cloudflare"),
             ("client.ts", getHonoClient 4321)]
           virtualImports := [(VIRTUAL_MODULE_ID_CLIENT, "client.ts"),
             (VIRTUAL_MODULE_ID_ROUTER, "router.ts")]
           injectedRoutes := [("/api/[...slug]", "api.ts")] }, none⟩ := rfl

/-- C10: the reserved-path rejection is exact string membership — `setup`
errors exactly when the configured base path (defaulted to `/api`) is an
element of `reservedRoutes`; in particular `/_astro` (leading slash) and
`_astro/v1` (reserved prefix plus suffix) are accepted and the pass proceeds
to the config-setup hook. -/
theorem c10_exact_membership (options : IntegrationOptions) (input : ConfigSetupInput) :
    ((∃ e, setupBasePath options = Except.error e) ↔
      options.basePath.getD "/api" ∈ reservedRoutes) ∧
    setupBasePath { basePath := some "/_astro", actionsPath := none } =
      Except.ok "/_astro" ∧
    setupBasePath { basePath := some "_astro/v1", actionsPath := none } =
      Except.ok "_astro/v1" ∧
    runIntegration { basePath := some "/_astro", actionsPath := none } input =
      Except.ok (configSetupHook { basePath := some "/_astro", actionsPath := none }
        "/_astro" input) := by
  refine ⟨⟨?_, ?_⟩, rfl, rfl, rfl⟩
  · rintro ⟨e, he⟩
    by_contra hc
    simp [setupBasePath, hc] at he
  · intro h
    refine ⟨"Base path " ++ options.basePath.getD "/api" ++
      " is reserved by Astro; pick another (e.g. /api2).", ?_⟩
    simp [setupBasePath, h]

end HonoActions
